import Mathlib

/-!
Verification of the TSight lineage core (src/lineage.py): the data model
(Table, Column, Transformation, ColumnMapping), quality scoring, search,
the lineage graph builder, and JSON import/export, embedded shallowly as
executable Lean definitions, together with theorems settling the spec's
claims about them.
-/

namespace Lineage

/-! ## Data model (classes Table, Column, Transformation, ColumnMapping) -/

/-- Column record: `class Column`.  `quality_score` is the derived score field
(initialised to 0 by the constructor, recomputed by `update_quality_scores`). -/
structure Column where
  name : String
  data_type : String
  description : String
  source_columns : List String
  quality_score : Nat
deriving DecidableEq

/-- Table record: `class Table`.  `last_updated` is the timestamp string the
constructor stamps with the current time; it is carried as plain data here. -/
structure Table where
  name : String
  schema : String
  description : String
  table_type : String
  autosys_jobs : List String
  columns : List Column
  quality_score : Nat
  last_updated : String
deriving DecidableEq

/-- Column mapping record: `class ColumnMapping`. -/
structure ColumnMapping where
  source_table : String
  source_column : String
  target_table : String
  target_column : String
  transformation_rule : String
deriving DecidableEq

/-- Transformation record: `class Transformation`.  `created_date` is the
timestamp string the constructor stamps with the current time. -/
structure Transformation where
  name : String
  transformation_type : String
  input_tables : List String
  output_tables : List String
  logic : String
  description : String
  column_mappings : List ColumnMapping
  autosys_jobs : List String
  created_date : String
deriving DecidableEq

/-! ## Quality scoring (`update_quality_scores`)

Python's `int()` on a non-negative float truncates, i.e. takes the floor;
the float arithmetic `avg * 0.8 + has_description` is modelled exactly over
`ℚ` with the literal `4/5`. -/

/-- Body of the per-column part of `update_quality_scores`: three 10-point
bonuses for non-empty description, non-empty data type and a non-empty
source list, capped at 100. -/
def update_column (column : Column) : Column :=
  let has_description : Nat := if column.description ≠ "" then 10 else 0
  let has_data_type : Nat := if column.data_type ≠ "" then 10 else 0
  let has_sources : Nat := if column.source_columns ≠ [] then 10 else 0
  { column with quality_score := min 100 (has_description + has_data_type + has_sources) }

/-- Body of the per-table part of `update_quality_scores`: recompute every
column score, then set the table score from the average column score plus a
20-point description bonus, truncated to an integer and capped at 100; a
table with no columns scores only the description bonus. -/
def update_table (table : Table) : Table :=
  let newCols := table.columns.map update_column
  let quality_sum : Nat := (newCols.map Column.quality_score).sum
  if table.columns = [] then
    { table with
      columns := newCols,
      quality_score := if table.description ≠ "" then 20 else 0 }
  else
    let avg_column_score : ℚ := (quality_sum : ℚ) / (table.columns.length : ℚ)
    let has_description : ℚ := if table.description ≠ "" then 20 else 0
    { table with
      columns := newCols,
      quality_score := min 100 (Int.toNat ⌊avg_column_score * (4/5) + has_description⌋) }

/-- `update_quality_scores`: recompute the quality score of every column and
every table of the catalog. -/
def update_quality_scores (tables : List Table) : List Table :=
  tables.map update_table

/-! ## Search (`search_lineage`)

Python's `a.lower()` is modelled by mapping `Char.toLower` over the
characters, and `a in b` by the substring test `is_sub`. -/

/-- Characters of `s` lowercased: model of Python `s.lower()`. -/
def py_lower (s : String) : List Char :=
  s.data.map Char.toLower

/-- Substring test: model of Python `needle in haystack` on strings. -/
def is_sub : List Char → List Char → Bool
  | needle, [] => needle.isEmpty
  | needle, c :: rest => needle.isPrefixOf (c :: rest) || is_sub needle rest

/-- Table entry of the search results dictionary. -/
structure TableResult where
  name : String
  schema : String
  description : String
  table_type : String
  type : String
deriving DecidableEq

/-- Column entry of the search results dictionary. -/
structure ColumnResult where
  name : String
  data_type : String
  description : String
  table : String
  type : String
deriving DecidableEq

/-- Transformation entry of the search results dictionary. -/
structure TransformationResult where
  name : String
  type : String
  description : String
  input_tables : List String
  output_tables : List String
deriving DecidableEq

/-- The `results` dictionary returned by `search_lineage`. -/
structure SearchResults where
  tables : List TableResult
  columns : List ColumnResult
  transformations : List TransformationResult
deriving DecidableEq

/-- Table match condition of `search_lineage`: query occurs in the name,
description, schema, table type, or any Autosys job name (all lowercased). -/
def table_match (q : List Char) (table : Table) : Bool :=
  let autosys_match := table.autosys_jobs.any (fun job => is_sub q (py_lower job))
  let table_type_match := is_sub q (py_lower table.table_type)
  is_sub q (py_lower table.name) || is_sub q (py_lower table.description) ||
    is_sub q (py_lower table.schema) || table_type_match || autosys_match

/-- Column match condition of `search_lineage`. -/
def column_match (q : List Char) (column : Column) : Bool :=
  is_sub q (py_lower column.name) || is_sub q (py_lower column.description) ||
    is_sub q (py_lower column.data_type)

/-- Transformation match condition of `search_lineage`: query occurs in the
name, description, logic, or any Autosys job name (all lowercased). -/
def transformation_match (q : List Char) (transformation : Transformation) : Bool :=
  let autosys_match := transformation.autosys_jobs.any (fun job => is_sub q (py_lower job))
  is_sub q (py_lower transformation.name) || is_sub q (py_lower transformation.description) ||
    is_sub q (py_lower transformation.logic) || autosys_match

/-- `search_lineage`: lowercase the query, then collect matching tables,
columns and transformations in input iteration order. -/
def search_lineage (query : String) (tables : List Table)
    (transformations : List Transformation) : SearchResults :=
  let q := py_lower query
  { tables := (tables.filter (table_match q)).map
      (fun t => ⟨t.name, t.schema, t.description, t.table_type, "table"⟩)
  , columns := tables.flatMap
      (fun t => (t.columns.filter (column_match q)).map
        (fun c => ⟨t.name ++ "." ++ c.name, c.data_type, c.description, t.name, "column"⟩))
  , transformations := (transformations.filter (transformation_match q)).map
      (fun tr => ⟨tr.name, tr.transformation_type, tr.description,
                  tr.input_tables, tr.output_tables⟩) }

/-! ## Lineage graph builder (`create_lineage_graph`)

The networkx `DiGraph` is modelled by ordered node and edge lists.  Node and
edge attributes are dictionaries whose keys may be absent, so every attribute
field is an `Option`; `add_node`/`add_edge` on an existing node/edge update
the stored dictionary (new keys win, absent keys keep the old value), exactly
as networkx does, and `add_edge` inserts missing endpoint nodes. -/

/-- Node attribute dictionary (keys label, title, shape, color, size). -/
structure NodeAttrs where
  label : Option String
  title : Option String
  shape : Option String
  color : Option String
  size : Option Nat
deriving DecidableEq

/-- A graph node: identifier plus attribute dictionary. -/
structure GNode where
  id : String
  attrs : NodeAttrs
deriving DecidableEq

/-- Edge attribute dictionary (keys label, title). -/
structure EdgeAttrs where
  label : Option String
  title : Option String
deriving DecidableEq

/-- A directed edge with its attribute dictionary. -/
structure GEdge where
  src : String
  tgt : String
  attrs : EdgeAttrs
deriving DecidableEq

/-- The directed graph: insertion-ordered nodes and edges. -/
structure Digraph where
  nodes : List GNode
  edges : List GEdge
deriving DecidableEq

/-- Dictionary update on one optional key: the new value wins when present. -/
def updOpt {α : Type} : Option α → Option α → Option α
  | some a, _ => some a
  | none, old => old

/-- Dictionary update of a node attribute dictionary. -/
def NodeAttrs.update (old new : NodeAttrs) : NodeAttrs :=
  ⟨updOpt new.label old.label, updOpt new.title old.title, updOpt new.shape old.shape,
   updOpt new.color old.color, updOpt new.size old.size⟩

/-- Dictionary update of an edge attribute dictionary. -/
def EdgeAttrs.update (old new : EdgeAttrs) : EdgeAttrs :=
  ⟨updOpt new.label old.label, updOpt new.title old.title⟩

/-- Membership test `x in G` on node identifiers. -/
def Digraph.hasNode (G : Digraph) (id : String) : Bool :=
  G.nodes.any (fun n => n.id = id)

/-- Edge presence test for a (source, target) pair. -/
def Digraph.hasEdge (G : Digraph) (s t : String) : Bool :=
  G.edges.any (fun e => e.src = s && e.tgt = t)

/-- `G.add_node id attrs`: append a fresh node, or update the attribute
dictionary of the existing node with that identifier. -/
def Digraph.add_node (G : Digraph) (id : String) (attrs : NodeAttrs) : Digraph :=
  if G.hasNode id then
    { G with nodes := G.nodes.map (fun n => if n.id = id then ⟨n.id, n.attrs.update attrs⟩ else n) }
  else
    { G with nodes := G.nodes ++ [⟨id, attrs⟩] }

/-- Empty attribute dictionary used for nodes silently created by `add_edge`. -/
def emptyNodeAttrs : NodeAttrs := ⟨none, none, none, none, none⟩

/-- `G.add_edge s t attrs`: insert missing endpoint nodes, then append a fresh
edge or update the attribute dictionary of the existing `(s, t)` edge —
networkx `DiGraph.add_edge` semantics (a duplicate insertion overwrites). -/
def Digraph.add_edge (G : Digraph) (s t : String) (attrs : EdgeAttrs) : Digraph :=
  let ns1 := if G.hasNode s then G.nodes else G.nodes ++ [⟨s, emptyNodeAttrs⟩]
  let ns2 := if ns1.any (fun n => n.id = t) then ns1 else ns1 ++ [⟨t, emptyNodeAttrs⟩]
  if G.hasEdge s t then
    ⟨ns2, G.edges.map (fun e => if e.src = s && e.tgt = t then ⟨e.src, e.tgt, e.attrs.update attrs⟩ else e)⟩
  else
    ⟨ns2, G.edges ++ [⟨s, t, attrs⟩]⟩

/-- `DATABASE_TYPE_COLORS`: fill color for each database type. -/
def DATABASE_TYPE_COLORS : List (String × String) :=
  [("HIVE", "#FF9800"), ("Oracle", "#F44336"), ("Snowflake", "#2196F3"),
   ("PostgreSQL", "#336791"), ("MySQL", "#4479A1"), ("SQL Server", "#CC2927"),
   ("BigQuery", "#4285F4"), ("Redshift", "#8C4FFF"), ("Teradata", "#F37440"),
   ("DB2", "#1F70C1"), ("Cassandra", "#1287B1"), ("MongoDB", "#47A248"),
   ("Spark", "#E25A1C"), ("Delta Lake", "#00ADD4"), ("Iceberg", "#3F7CAC"),
   ("Other", "#9E9E9E")]

/-- `DATABASE_TYPE_COLORS.get(table_type, DATABASE_TYPE_COLORS["Other"])`. -/
def table_color (table : Table) : String :=
  (DATABASE_TYPE_COLORS.lookup table.table_type).getD "#9E9E9E"

/-- Tooltip text of a table node (type, schema, description, job list). -/
def table_tooltip (table : Table) : String :=
  let base := "Type: " ++ table.table_type ++ "\nSchema: " ++ table.schema ++ "\n"
    ++ table.description
  if table.autosys_jobs ≠ [] then
    base ++ "\nAutosys Jobs: " ++ String.intercalate ", " table.autosys_jobs
  else base

/-- Tooltip text of a transformation node (type, description, job list). -/
def transformation_tooltip (transformation : Transformation) : String :=
  let base := "Type: " ++ transformation.transformation_type ++ "\nDescription: "
    ++ transformation.description
  if transformation.autosys_jobs ≠ [] then
    base ++ "\nAutosys Jobs: " ++ String.intercalate ", " transformation.autosys_jobs
  else base

/-- The focus filter of the table loop: a table is skipped when a focus entity
is set (a non-empty string) and is neither the table name nor one of the
table's `"table.column"` identifiers. -/
def table_skipped (focus_entity : Option String) (table : Table) : Bool :=
  match focus_entity with
  | none => false
  | some f => f ≠ "" &&
      !(f = table.name || table.columns.any (fun col => f = table.name ++ "." ++ col.name))

/-- Table-loop body of `create_lineage_graph`: add the table node, and in
column-level mode one ellipse node per column plus a containment edge. -/
def add_table (include_columns : Bool) (G : Digraph) (table : Table) : Digraph :=
  let G := G.add_node table.name
    ⟨some table.name, some (table_tooltip table), some "box", some (table_color table), none⟩
  if include_columns then
    table.columns.foldl (fun G column =>
      let col_node_id := table.name ++ "." ++ column.name
      let G := G.add_node col_node_id
        ⟨some column.name,
         some ("Type: " ++ column.data_type ++ "\nDescription: " ++ column.description),
         some "ellipse", some "#2196F3", some 10⟩
      G.add_edge table.name col_node_id ⟨none, none⟩) G
  else G

/-- Column-mapping body of `create_lineage_graph`: the edge pair
`source_id → transformation` (with the rule as tooltip) and
`transformation → target_id` is added only when both endpoint identifiers are
already nodes of the graph; otherwise the graph is unchanged. -/
def process_mapping (transformation_name : String) (G : Digraph) (m : ColumnMapping) : Digraph :=
  let source_id := m.source_table ++ "." ++ m.source_column
  let target_id := m.target_table ++ "." ++ m.target_column
  if G.hasNode source_id && G.hasNode target_id then
    (G.add_edge source_id transformation_name ⟨none, some m.transformation_rule⟩).add_edge
      transformation_name target_id ⟨none, none⟩
  else G

/-- Transformation-loop body of `create_lineage_graph`.  Column-level mode:
add the diamond transformation node, then either process the column mappings
or fall back to table-level connections through the transformation node.
Table-level mode: one direct labeled edge per (input, output) pair whose two
table nodes exist; no transformation node. -/
def process_transformation (include_columns : Bool) (G : Digraph)
    (transformation : Transformation) : Digraph :=
  if include_columns then
    let G := G.add_node transformation.name
      ⟨some transformation.name, some (transformation_tooltip transformation),
       some "diamond", some "#FFC107", none⟩
    if transformation.column_mappings ≠ [] then
      transformation.column_mappings.foldl (process_mapping transformation.name) G
    else
      let G := transformation.input_tables.foldl (fun G input_table =>
        if G.hasNode input_table then
          G.add_edge input_table transformation.name ⟨none, none⟩
        else G) G
      transformation.output_tables.foldl (fun G output_table =>
        if G.hasNode output_table then
          G.add_edge transformation.name output_table ⟨none, none⟩
        else G) G
  else
    transformation.input_tables.foldl (fun G input_table =>
      transformation.output_tables.foldl (fun G output_table =>
        if G.hasNode input_table && G.hasNode output_table then
          G.add_edge input_table output_table
            ⟨some transformation.name, some transformation.description⟩
        else G) G) G

/-- `create_lineage_graph`: build the lineage graph from the catalog. -/
def create_lineage_graph (tables : List Table) (transformations : List Transformation)
    (include_columns : Bool) (focus_entity : Option String) : Digraph :=
  let G : Digraph := ⟨[], []⟩
  let G := tables.foldl (fun G table =>
    if table_skipped focus_entity table then G else add_table include_columns G table) G
  transformations.foldl (process_transformation include_columns) G

/-! ## Persistence (`export_data` / `import_data`)

The JSON document is modelled structurally: a dictionary key that the import
reads with `.get(key, default)` or guards with `in` is an `Option` field, and
a key read with `[key]` is an `Option` field whose absence raises (modelled
with `Except`, matching the `try/except` around the whole import).  The Python
constructors stamp `last_updated`/`created_date` with the current time, passed
here as the explicit `now` argument. -/

/-- Serialized column object (`col.__dict__`). -/
structure ColumnDoc where
  name : Option String
  data_type : Option String
  description : Option String
  source_columns : Option (List String)
  quality_score : Option Nat
deriving DecidableEq

/-- Serialized table object (`table.__dict__` with inline columns). -/
structure TableDoc where
  name : Option String
  schema : Option String
  description : Option String
  table_type : Option String
  autosys_jobs : Option (List String)
  columns : Option (List ColumnDoc)
  quality_score : Option Nat
  last_updated : Option String
deriving DecidableEq

/-- Serialized column mapping object (`mapping.__dict__`). -/
structure MappingDoc where
  source_table : Option String
  source_column : Option String
  target_table : Option String
  target_column : Option String
  transformation_rule : Option String
deriving DecidableEq

/-- Serialized transformation object (`transformation.__dict__` with inline
column mappings). -/
structure TransformationDoc where
  name : Option String
  transformation_type : Option String
  input_tables : Option (List String)
  output_tables : Option (List String)
  logic : Option String
  description : Option String
  column_mappings : Option (List MappingDoc)
  autosys_jobs : Option (List String)
  created_date : Option String
deriving DecidableEq

/-- The exported JSON document: top-level keys `tables`, `transformations`. -/
structure JsonDoc where
  tables : Option (List TableDoc)
  transformations : Option (List TransformationDoc)
deriving DecidableEq

/-- `export_data` on one column: dump every attribute. -/
def export_column (c : Column) : ColumnDoc :=
  ⟨some c.name, some c.data_type, some c.description, some c.source_columns,
   some c.quality_score⟩

/-- `export_data` on one table: dump every attribute, columns inline. -/
def export_table (t : Table) : TableDoc :=
  ⟨some t.name, some t.schema, some t.description, some t.table_type,
   some t.autosys_jobs, some (t.columns.map export_column), some t.quality_score,
   some t.last_updated⟩

/-- `export_data` on one column mapping: dump every attribute. -/
def export_mapping (m : ColumnMapping) : MappingDoc :=
  ⟨some m.source_table, some m.source_column, some m.target_table,
   some m.target_column, some m.transformation_rule⟩

/-- `export_data` on one transformation: dump every attribute, mappings
inline (`created_date` is dumped too, being part of `__dict__`). -/
def export_transformation (tr : Transformation) : TransformationDoc :=
  ⟨some tr.name, some tr.transformation_type, some tr.input_tables,
   some tr.output_tables, some tr.logic, some tr.description,
   some (tr.column_mappings.map export_mapping), some tr.autosys_jobs,
   some tr.created_date⟩

/-- `export_data`: serialize the whole catalog to a JSON document. -/
def export_data (tables : List Table) (transformations : List Transformation) : JsonDoc :=
  ⟨some (tables.map export_table), some (transformations.map export_transformation)⟩

/-- Required-key access `d[key]`: raises (KeyError) when the key is absent. -/
def req {α : Type} : Option α → Except String α
  | some a => Except.ok a
  | none => Except.error "KeyError"

/-- `import_data` on one column object: `name`, `data_type`, `description`
required; `source_columns` defaults to `[]`; `quality_score` kept when
present, else the constructor default 0. -/
def parse_column (cd : ColumnDoc) : Except String Column := do
  let n ← req cd.name
  let dt ← req cd.data_type
  let d ← req cd.description
  Except.ok { name := n, data_type := dt, description := d,
              source_columns := cd.source_columns.getD [],
              quality_score := cd.quality_score.getD 0 }

/-- Column list of one imported table, in order; the first bad record
raises. -/
def parse_columns : List ColumnDoc → Except String (List Column)
  | [] => Except.ok []
  | cd :: rest => do
      let c ← parse_column cd
      let cs ← parse_columns rest
      Except.ok (c :: cs)

/-- `import_data` on one table object: `name`, `schema`, `description`
required; `autosys_jobs`, `table_type`, `columns` have backward-compatible
defaults; `quality_score` and `last_updated` are kept when present, else the
constructor defaults (0, and the current time `now`). -/
def parse_table (now : String) (td : TableDoc) : Except String Table := do
  let n ← req td.name
  let s ← req td.schema
  let d ← req td.description
  let cols ← parse_columns (td.columns.getD [])
  Except.ok { name := n, schema := s, description := d,
              table_type := td.table_type.getD "Other",
              autosys_jobs := td.autosys_jobs.getD [],
              columns := cols,
              quality_score := td.quality_score.getD 0,
              last_updated := td.last_updated.getD now }

/-- Table list of the imported document, in order. -/
def parse_tables (now : String) : List TableDoc → Except String (List Table)
  | [] => Except.ok []
  | td :: rest => do
      let t ← parse_table now td
      let ts ← parse_tables now rest
      Except.ok (t :: ts)

/-- `import_data` on one column mapping object: the four endpoint fields are
required; `transformation_rule` defaults to `""`. -/
def parse_mapping (md : MappingDoc) : Except String ColumnMapping := do
  let st ← req md.source_table
  let sc ← req md.source_column
  let tt ← req md.target_table
  let tc ← req md.target_column
  Except.ok { source_table := st, source_column := sc, target_table := tt,
              target_column := tc,
              transformation_rule := md.transformation_rule.getD "" }

/-- Mapping list of one imported transformation, in order. -/
def parse_mappings : List MappingDoc → Except String (List ColumnMapping)
  | [] => Except.ok []
  | md :: rest => do
      let m ← parse_mapping md
      let ms ← parse_mappings rest
      Except.ok (m :: ms)

/-- `import_data` on one transformation object: six fields required;
`autosys_jobs` defaults; `column_mappings` parsed when the key is present,
else the constructor default `[]`.  `created_date` is set by the constructor
to the current time `now` and — unlike the table timestamps — never restored
from the document. -/
def parse_transformation (now : String) (td : TransformationDoc) :
    Except String Transformation := do
  let n ← req td.name
  let tt ← req td.transformation_type
  let its ← req td.input_tables
  let ots ← req td.output_tables
  let lg ← req td.logic
  let d ← req td.description
  let cms ← match td.column_mappings with
    | none => Except.ok []
    | some mds => parse_mappings mds
  Except.ok { name := n, transformation_type := tt, input_tables := its,
              output_tables := ots, logic := lg, description := d,
              column_mappings := cms,
              autosys_jobs := td.autosys_jobs.getD [],
              created_date := now }

/-- Transformation list of the imported document, in order. -/
def parse_transformations (now : String) :
    List TransformationDoc → Except String (List Transformation)
  | [] => Except.ok []
  | td :: rest => do
      let t ← parse_transformation now td
      let ts ← parse_transformations now rest
      Except.ok (t :: ts)

/-- Parse a whole document into the new catalog (both top-level keys default
to `[]` via `.get`). -/
def import_catalog (now : String) (d : JsonDoc) :
    Except String (List Table × List Transformation) := do
  let ts ← parse_tables now (d.tables.getD [])
  let trs ← parse_transformations now (d.transformations.getD [])
  Except.ok (ts, trs)

/-- The in-memory catalog held in the session state. -/
structure SessionState where
  tables : List Table
  transformations : List Transformation
deriving DecidableEq

/-- What `import_data` receives from the file system: a missing file, a file
whose contents are not valid JSON, or a parsed JSON document. -/
inductive ImportInput where
  | fileNotFound : ImportInput
  | malformedJson : ImportInput
  | doc : JsonDoc → ImportInput
deriving DecidableEq

/-- `import_data`: on success replace the whole catalog with the parsed
document's contents and report success; on any failure (missing file,
malformed JSON, or a parse error inside the `try` block) report the error and
leave the session state untouched. -/
def import_data : ImportInput → String → SessionState → SessionState × Bool
  | ImportInput.fileNotFound, _, st => (st, false)
  | ImportInput.malformedJson, _, st => (st, false)
  | ImportInput.doc d, now, st =>
    match import_catalog now d with
    | Except.ok (ts, trs) => ({ tables := ts, transformations := trs }, true)
    | Except.error _ => (st, false)

/-! ## Derived notions and concrete fixtures used by the theorems below -/

/-- The (source, target) key list of the graph's edges, in insertion order. -/
def edge_keys (G : Digraph) : List (String × String) :=
  G.edges.map (fun e => (e.src, e.tgt))

/-- Modelled from the spec's words for claim C2 (not from the code): the
claimed table-score formula `min(100, round(avg(column_scores) * 0.8 +
(20 if description else 0)))` with `round` the arithmetic rounding to the
nearest integer, and `20 if description else 0` for a table without
columns. -/
def c2_claimed_score (t : Table) : ℤ :=
  if t.columns = [] then (if t.description ≠ "" then 20 else 0)
  else
    min 100 (round ((((t.columns.map Column.quality_score).sum : ℚ) /
      (t.columns.length : ℚ)) * (4/5) + (if t.description ≠ "" then (20:ℚ) else 0)))

/-- Fixture: a column-less table named A. -/
def tblA : Table := ⟨"A", "s", "", "Other", [], [], 0, "ts"⟩

/-- Fixture: a column-less table named B. -/
def tblB : Table := ⟨"B", "s", "", "Other", [], [], 0, "ts"⟩

/-- Fixture: a column-less table named C. -/
def tblC : Table := ⟨"C", "s", "", "Other", [], [], 0, "ts"⟩

/-- Fixture for C1: table A with the single column x. -/
def c1A : Table := ⟨"A", "s", "", "Other", [], [⟨"x", "INT", "", [], 0⟩], 0, "ts"⟩

/-- Fixture for C1: table B with the single column y. -/
def c1B : Table := ⟨"B", "s", "", "Other", [], [⟨"y", "INT", "", [], 0⟩], 0, "ts"⟩

/-- Fixture for C1: transformation T with the single mapping A.x → B.y. -/
def c1T : Transformation :=
  ⟨"T", "SQL", ["A"], ["B"], "", "", [⟨"A", "x", "B", "y", "copy"⟩], [], "ts"⟩

/-- Fixture for C2/C7: a description-less table whose three columns score
10, 10 and 20 after recomputation, so the average column score is 40/3. -/
def c2tbl : Table := ⟨"t", "s", "", "Other", [],
  [⟨"c1", "", "d", [], 0⟩, ⟨"c2", "", "d", [], 0⟩, ⟨"c3", "INT", "d", [], 0⟩], 0, "ts"⟩

/-- Fixture for the C2 witness: a one-column table. -/
def c2w : Table := ⟨"w", "s", "", "Other", [], [⟨"c", "INT", "", [], 0⟩], 0, "ts"⟩

/-- Fixture for C3: first transformation producing the pair (A, B). -/
def c3T1 : Transformation := ⟨"T1", "SQL", ["A"], ["B"], "", "first", [], [], "ts"⟩

/-- Fixture for C3: second transformation producing the same pair (A, B). -/
def c3T2 : Transformation := ⟨"T2", "SQL", ["A"], ["B"], "", "second", [], [], "ts"⟩

/-- Fixture for the C5 witness: a graph whose only node is A.x. -/
def c5G : Digraph := ⟨[⟨"A.x", emptyNodeAttrs⟩], []⟩

/-- Fixture for the C5 witness: the mapping A.x → B.y, whose target is not a
node of `c5G`. -/
def c5m : ColumnMapping := ⟨"A", "x", "B", "y", "copy"⟩

/-- Fixture for C6: a transformation with inputs [A, B] and output [C]. -/
def c6T : Transformation := ⟨"T", "SQL", ["A", "B"], ["C"], "", "combine", [], [], "ts"⟩

/-- Fixture for the C7 witness: the third column of `c2tbl` after
recomputation (description and data type present: score 20). -/
def c7col : Column := ⟨"c3", "INT", "d", [], 20⟩

/-- Fixture for the C8 witness: a document whose only table object lacks the
required `name` key, so the import raises mid-parse. -/
def c8bad : JsonDoc := ⟨some [⟨none, some "s", some "d", none, none, none, none, none⟩], none⟩

/-- Fixture for the C8 witness: a non-empty pre-import catalog. -/
def c8st : SessionState := ⟨[tblA], []⟩

/-- Fixture for the C9 witness: a table whose only occurrence of "yjob" is
inside its Autosys job name. -/
def c9tbl : Table := ⟨"orders", "sales", "desc-x", "Other", ["MYJOB1"], [], 0, "ts"⟩

/-- Fixture for C4: a transformation created on 2024-01-01. -/
def tr0 : Transformation :=
  ⟨"order_processing", "SQL", ["customers"], ["orders"], "SELECT 1", "", [], [], "2024-01-01 00:00:00"⟩

/-! ## Helper lemmas -/

@[simp] lemma req_some {α : Type} (a : α) : req (some a) = Except.ok a := rfl

@[simp] lemma ok_bind {α β : Type} (a : α) (f : α → Except String β) :
    (Except.ok a >>= f) = f a := rfl

lemma parse_column_export (c : Column) : parse_column (export_column c) = Except.ok c := rfl

lemma parse_mapping_export (m : ColumnMapping) :
    parse_mapping (export_mapping m) = Except.ok m := rfl

lemma parse_columns_export (cols : List Column) :
    parse_columns (cols.map export_column) = Except.ok cols := by
  induction cols with
  | nil => rfl
  | cons c rest ih =>
    simp only [List.map_cons, parse_columns]
    rw [parse_column_export, ih]
    rfl

lemma parse_mappings_export (ms : List ColumnMapping) :
    parse_mappings (ms.map export_mapping) = Except.ok ms := by
  induction ms with
  | nil => rfl
  | cons m rest ih =>
    simp only [List.map_cons, parse_mappings]
    rw [parse_mapping_export, ih]
    rfl

lemma parse_table_export (now : String) (t : Table) :
    parse_table now (export_table t) = Except.ok t := by
  simp only [parse_table, export_table, req_some, ok_bind, Option.getD_some,
    parse_columns_export]

lemma parse_transformation_export (now : String) (tr : Transformation) :
    parse_transformation now (export_transformation tr) =
      Except.ok { tr with created_date := now } := by
  simp only [parse_transformation, export_transformation, req_some, ok_bind,
    Option.getD_some, parse_mappings_export]

lemma parse_tables_export (now : String) (tables : List Table) :
    parse_tables now (tables.map export_table) = Except.ok tables := by
  induction tables with
  | nil => rfl
  | cons t rest ih =>
    simp only [List.map_cons, parse_tables]
    rw [parse_table_export, ih]
    rfl

lemma parse_transformations_export (now : String) (trs : List Transformation) :
    parse_transformations now (trs.map export_transformation) =
      Except.ok (trs.map (fun tr => { tr with created_date := now })) := by
  induction trs with
  | nil => rfl
  | cons tr rest ih =>
    simp only [List.map_cons, parse_transformations]
    rw [parse_transformation_export, ih]
    rfl

lemma is_sub_nil (l : List Char) : is_sub [] l = true := by
  cases l <;> rfl

lemma py_lower_empty : py_lower "" = [] := rfl

lemma update_table_columns (t : Table) :
    (update_table t).columns = t.columns.map update_column := by
  simp only [update_table]
  split <;> rfl

lemma update_table_description (t : Table) :
    (update_table t).description = t.description := by
  simp only [update_table]
  split <;> rfl

lemma update_table_score_cons (t : Table) (h : ¬ t.columns = []) :
    (update_table t).quality_score =
      min 100 (Int.toNat ⌊((((t.columns.map update_column).map Column.quality_score).sum : ℚ) /
        (t.columns.length : ℚ)) * (4/5) + (if t.description ≠ "" then (20:ℚ) else 0)⌋) := by
  simp only [update_table]
  rw [if_neg h]

lemma update_table_score_nil (t : Table) (h : t.columns = []) :
    (update_table t).quality_score = if t.description ≠ "" then 20 else 0 := by
  simp only [update_table]
  rw [if_pos h]

lemma foldl_pres {α β : Type} (P : β → Prop) (f : β → α → β)
    (h : ∀ b a, P b → P (f b a)) : ∀ (l : List α) (b : β), P b → P (l.foldl f b) := by
  intro l
  induction l with
  | nil => exact fun b hb => hb
  | cons a rest ih => exact fun b hb => ih (f b a) (h b a hb)

lemma edge_keys_add_node (G : Digraph) (id : String) (a : NodeAttrs) :
    edge_keys (G.add_node id a) = edge_keys G := by
  simp only [Digraph.add_node]
  split <;> rfl

lemma nodup_add_edge (G : Digraph) (s t : String) (a : EdgeAttrs)
    (h : (edge_keys G).Nodup) : (edge_keys (G.add_edge s t a)).Nodup := by
  simp only [Digraph.add_edge, edge_keys]
  by_cases he : G.hasEdge s t
  · rw [if_pos he]
    simp only []
    rw [List.map_map]
    have hcomp : ((fun e : GEdge => (e.src, e.tgt)) ∘
        (fun e => if e.src = s && e.tgt = t then (⟨e.src, e.tgt, e.attrs.update a⟩ : GEdge) else e)) =
        (fun e : GEdge => (e.src, e.tgt)) := by
      funext e
      simp only [Function.comp]
      split <;> rfl
    rw [hcomp]
    exact h
  · rw [if_neg he]
    simp only []
    rw [List.map_append]
    rw [List.nodup_append]
    refine ⟨h, by simp, ?_⟩
    intro p hp hq
    simp only [List.map_cons, List.map_nil, List.mem_singleton] at hq
    subst hq
    rw [List.mem_map] at hp
    obtain ⟨e, he', hkey⟩ := hp
    simp only [Digraph.hasEdge] at he
    rw [List.any_eq_true] at he
    exact he ⟨e, he', by
      have h1 : e.src = s := congrArg Prod.fst hkey
      have h2 : e.tgt = t := congrArg Prod.snd hkey
      simp [h1, h2]⟩

lemma nodup_process_mapping (tn : String) (G : Digraph) (m : ColumnMapping)
    (h : (edge_keys G).Nodup) : (edge_keys (process_mapping tn G m)).Nodup := by
  simp only [process_mapping]
  split
  · exact nodup_add_edge _ _ _ _ (nodup_add_edge _ _ _ _ h)
  · exact h

lemma nodup_add_table (ic : Bool) (G : Digraph) (tb : Table)
    (h : (edge_keys G).Nodup) : (edge_keys (add_table ic G tb)).Nodup := by
  have hbase : (edge_keys (G.add_node tb.name
      ⟨some tb.name, some (table_tooltip tb), some "box", some (table_color tb), none⟩)).Nodup := by
    rw [edge_keys_add_node]
    exact h
  simp only [add_table]
  split
  · exact foldl_pres (fun g => (edge_keys g).Nodup) _
      (fun g c hg => nodup_add_edge _ _ _ _ (by rw [edge_keys_add_node]; exact hg)) _ _ hbase
  · exact hbase

lemma nodup_process_transformation (ic : Bool) (G : Digraph) (tr : Transformation)
    (h : (edge_keys G).Nodup) : (edge_keys (process_transformation ic G tr)).Nodup := by
  simp only [process_transformation]
  split
  · have hbase : (edge_keys (G.add_node tr.name
        ⟨some tr.name, some (transformation_tooltip tr), some "diamond", some "#FFC107", none⟩)).Nodup := by
      rw [edge_keys_add_node]
      exact h
    split
    · exact foldl_pres (fun g => (edge_keys g).Nodup) _
        (fun g m hg => nodup_process_mapping tr.name g m hg) _ _ hbase
    · refine foldl_pres (fun g => (edge_keys g).Nodup) _ ?_ _ _
        (foldl_pres (fun g => (edge_keys g).Nodup) _ ?_ _ _ hbase)
      · intro g ot hg
        split
        · exact nodup_add_edge _ _ _ _ hg
        · exact hg
      · intro g it hg
        split
        · exact nodup_add_edge _ _ _ _ hg
        · exact hg
  · refine foldl_pres (fun g => (edge_keys g).Nodup) _ ?_ _ _ h
    intro g it hg
    refine foldl_pres (fun g2 => (edge_keys g2).Nodup) _ ?_ _ _ hg
    intro g2 ot hg2
    split
    · exact nodup_add_edge _ _ _ _ hg2
    · exact hg2

/-! ## Claim theorems -/

/-- C1, counterexample: with tables A (column x) and B (column y), one
transformation T mapping A.x → B.y and focus entity "A" in column-level mode,
the resulting graph is NOT "only the table node A with no edges": the claim
fails on the code, because focus filtering only skips whole tables and the
transformation node is added unconditionally. -/
theorem c1_counterexample :
    ¬ (((create_lineage_graph [c1A, c1B] [c1T] true (some "A")).nodes.map GNode.id = ["A"]) ∧
       (create_lineage_graph [c1A, c1B] [c1T] true (some "A")).edges = []) := by decide

/-- C1, amended: in that same scenario the graph's nodes are exactly A, A's
column node A.x and the transformation node T (B and B.y are excluded), and
its only edge is the containment edge A → A.x; neither mapping edge is added
since B.y is not a node. -/
theorem c1_focus_graph :
    ((create_lineage_graph [c1A, c1B] [c1T] true (some "A")).nodes.map GNode.id =
      ["A", "A.x", "T"]) ∧
    ((create_lineage_graph [c1A, c1B] [c1T] true (some "A")).edges.map
      (fun e => (e.src, e.tgt)) = [("A", "A.x")]) := by decide

/-- C2, counterexample: on a description-less table whose three columns score
10, 10 and 20, recomputation stores the truncated score 10 while the claimed
formula with arithmetic rounding yields round(32/3) = 11, so the claim as
stated is false. -/
theorem c2_counterexample :
    (update_quality_scores [c2tbl]).map (fun t => ((t.quality_score : ℤ), c2_claimed_score t)) =
      [(10, 11)] := by
  have hq : (update_table c2tbl).quality_score = 10 := by
    rw [update_table_score_cons c2tbl (by decide)]
    rw [show ((c2tbl.columns.map update_column).map Column.quality_score).sum = 40 from by decide]
    rw [show c2tbl.columns.length = 3 from by decide]
    rw [if_neg (by decide : ¬ c2tbl.description ≠ "")]
    rw [show ((40 : ℕ) : ℚ) / ((3 : ℕ) : ℚ) * (4/5) + 0 = 32/3 from by norm_num]
    rw [show ⌊(32 : ℚ)/3⌋ = (10 : ℤ) from by rw [Int.floor_eq_iff]; norm_num]
    rfl
  have hcols : (update_table c2tbl).columns =
      [⟨"c1", "", "d", [], 10⟩, ⟨"c2", "", "d", [], 10⟩, ⟨"c3", "INT", "d", [], 20⟩] := by
    decide
  have hdesc : (update_table c2tbl).description = "" := by decide
  have hclaimed : c2_claimed_score (update_table c2tbl) = 11 := by
    unfold c2_claimed_score
    rw [hcols, hdesc]
    rw [if_neg (by decide : ¬ ([⟨"c1", "", "d", [], 10⟩, ⟨"c2", "", "d", [], 10⟩,
      ⟨"c3", "INT", "d", [], 20⟩] : List Column) = [])]
    rw [if_neg (by decide : ¬ ("" : String) ≠ "")]
    norm_num
    rw [round_eq]
    rw [show (32 : ℚ)/3 + 1/2 = 67/6 from by norm_num]
    rw [show ⌊(67 : ℚ)/6⌋ = (11 : ℤ) from by rw [Int.floor_eq_iff]; norm_num]
    norm_num
  simp [update_quality_scores, hq, hclaimed]

/-- C2, amended: after recomputation every table's score is
`min(100, ⌊avg(column_scores) * 0.8 + (20 if description else 0)⌋)` —
truncation (Python `int()`), not arithmetic rounding — when it has columns,
and `20 if description else 0` when it has none. -/
theorem c2_truncated_score (tables : List Table) (t : Table)
    (ht : t ∈ update_quality_scores tables) :
    (t.columns ≠ [] →
      (t.quality_score : ℤ) =
        min 100 ⌊(((t.columns.map Column.quality_score).sum : ℚ) /
          (t.columns.length : ℚ)) * (4/5) + (if t.description ≠ "" then (20:ℚ) else 0)⌋) ∧
    (t.columns = [] → t.quality_score = if t.description ≠ "" then 20 else 0) := by
  rw [update_quality_scores, List.mem_map] at ht
  obtain ⟨x, hx, rfl⟩ := ht
  by_cases h : x.columns = []
  · refine ⟨fun hne => absurd ?_ hne, fun _ => ?_⟩
    · rw [update_table_columns, h]
      rfl
    · rw [update_table_description]
      exact update_table_score_nil x h
  · constructor
    · intro _
      have hd : (0:ℚ) ≤ (if x.description ≠ "" then (20:ℚ) else 0) := by
        split <;> norm_num
      have hE : (0:ℚ) ≤ ((((x.columns.map update_column).map Column.quality_score).sum : ℚ) /
          (x.columns.length : ℚ)) * (4/5) + (if x.description ≠ "" then (20:ℚ) else 0) := by
        have hmul : (0:ℚ) ≤ ((((x.columns.map update_column).map Column.quality_score).sum : ℚ) /
            (x.columns.length : ℚ)) * (4/5) := by positivity
        linarith
      have hfl : 0 ≤ ⌊((((x.columns.map update_column).map Column.quality_score).sum : ℚ) /
          (x.columns.length : ℚ)) * (4/5) + (if x.description ≠ "" then (20:ℚ) else 0)⌋ :=
        Int.floor_nonneg.mpr hE
      rw [update_table_score_cons x h, update_table_columns, update_table_description,
        List.length_map]
      rw [Nat.cast_min]
      rw [Int.toNat_of_nonneg hfl]
      rfl
    · intro habs
      rw [update_table_columns] at habs
      exact absurd (List.map_eq_nil_iff.mp habs) h

/-- C2, witness: the amended statement evaluated on the recomputed one-column
table `c2w` (column score 10, truncated table score 8). -/
theorem c2_truncated_score_witness :
    ((update_table c2w).quality_score : ℤ) =
      min 100 ⌊((((update_table c2w).columns.map Column.quality_score).sum : ℚ) /
        ((update_table c2w).columns.length : ℚ)) * (4/5) +
        (if (update_table c2w).description ≠ "" then (20:ℚ) else 0)⌋ :=
  (c2_truncated_score [c2w] (update_table c2w) (by simp [update_quality_scores])).1 (by decide)

/-- C3, counterexample: in table-level mode, two distinct transformations T1
and T2 that each produce the pair (A, B) leave a single A → B edge whose
label is the second transformation's name — the duplicate insertion
overwrites the first edge instead of creating a parallel edge, because the
graph is a simple networkx DiGraph, not a multigraph. -/
theorem c3_counterexample :
    ((create_lineage_graph [tblA, tblB] [c3T1, c3T2] false none).edges.map
      (fun e => (e.src, e.tgt, e.attrs.label))) = [("A", "B", some "T2")] := by decide

/-- C3, amended: the graph built by `create_lineage_graph` never contains
parallel edges — the (source, target) keys of its edge list are pairwise
distinct in every mode; a duplicate insertion updates the existing edge's
attributes in place. -/
theorem c3_no_parallel_edges (tables : List Table) (transformations : List Transformation)
    (include_columns : Bool) (focus_entity : Option String) :
    ((create_lineage_graph tables transformations include_columns focus_entity).edges.map
      (fun e => (e.src, e.tgt))).Nodup := by
  show (edge_keys (create_lineage_graph tables transformations include_columns focus_entity)).Nodup
  simp only [create_lineage_graph]
  refine foldl_pres (fun g => (edge_keys g).Nodup) _
    (fun g tr hg => nodup_process_transformation include_columns g tr hg) _ _
    (foldl_pres (fun g => (edge_keys g).Nodup) _ ?_ _ _ ?_)
  · intro g tb hg
    split
    · exact hg
    · exact nodup_add_table include_columns g tb hg
  · exact List.Pairwise.nil

/-- C4, counterexample: exporting a catalog holding the transformation `tr0`
(created 2024-01-01) and importing the document on 2025-06-15 does not
reproduce the catalog field-for-field: the transformation's `created_date`
is reset to the import time instead of being restored. -/
theorem c4_counterexample :
    import_catalog "2025-06-15 12:00:00" (export_data [tblA] [tr0]) ≠
      Except.ok ([tblA], [tr0]) := by
  intro h
  rw [show import_catalog "2025-06-15 12:00:00" (export_data [tblA] [tr0]) =
      Except.ok ([tblA], [{ tr0 with created_date := "2025-06-15 12:00:00" }]) from rfl] at h
  exact absurd (Except.ok.inj h) (by decide)

/-- C4, amended: exporting any catalog and importing the document at time
`now` succeeds and reproduces every table (all fields, columns and scores
included) and every transformation field-for-field, except that each
transformation's `created_date` is replaced by `now`. -/
theorem c4_roundtrip (tables : List Table) (transformations : List Transformation)
    (now : String) :
    import_catalog now (export_data tables transformations) =
      Except.ok (tables, transformations.map (fun tr => { tr with created_date := now })) := by
  simp only [import_catalog, export_data, Option.getD_some, parse_tables_export, ok_bind,
    parse_transformations_export]

/-- C5: a column mapping whose source identifier or target identifier is not
materialized as a node contributes no edge at all — the mapping step returns
the graph unchanged (and, being total, raises no error); partial visibility
of either endpoint suppresses the whole edge pair. -/
theorem c5_dangling_mapping (G : Digraph) (transformation_name : String) (m : ColumnMapping)
    (h : G.hasNode (m.source_table ++ "." ++ m.source_column) = false ∨
         G.hasNode (m.target_table ++ "." ++ m.target_column) = false) :
    process_mapping transformation_name G m = G := by
  unfold process_mapping
  rcases h with h | h <;> simp [h]

/-- C5, witness: on the graph containing only the node A.x, the mapping
A.x → B.y adds nothing. -/
theorem c5_witness : process_mapping "T" c5G c5m = c5G :=
  c5_dangling_mapping c5G "T" c5m (Or.inr (by decide))

/-- C6: in table-level mode with tables A, B, C and one transformation with
inputs [A, B] and output [C], the graph's edges are exactly A → C and B → C,
both labeled with the transformation's name, and its nodes are exactly the
three table nodes — no transformation node exists. -/
theorem c6_table_level :
    ((create_lineage_graph [tblA, tblB, tblC] [c6T] false none).edges.map
      (fun e => (e.src, e.tgt, e.attrs.label)) = [("A", "C", some "T"), ("B", "C", some "T")]) ∧
    ((create_lineage_graph [tblA, tblB, tblC] [c6T] false none).nodes.map GNode.id =
      ["A", "B", "C"]) := by decide

/-- C7: after recomputation every column's quality score lies in
{0, 10, 20, 30} — three independent 10-point bonuses with no partial
credit — and never exceeds 30. -/
theorem c7_column_score_range (tables : List Table) (t : Table)
    (ht : t ∈ update_quality_scores tables) (c : Column) (hc : c ∈ t.columns) :
    (c.quality_score = 0 ∨ c.quality_score = 10 ∨ c.quality_score = 20 ∨ c.quality_score = 30) ∧
      c.quality_score ≤ 30 := by
  rw [update_quality_scores, List.mem_map] at ht
  obtain ⟨x, hx, rfl⟩ := ht
  rw [update_table_columns, List.mem_map] at hc
  obtain ⟨y, hy, rfl⟩ := hc
  have hval : (update_column y).quality_score =
      min 100 ((if y.description ≠ "" then 10 else 0) + (if y.data_type ≠ "" then 10 else 0) +
        (if y.source_columns ≠ [] then 10 else 0)) := rfl
  rw [hval]
  constructor
  · split <;> split <;> split <;> simp
  · split <;> split <;> split <;> simp

/-- C7, witness: the recomputed column `c7col` of `c2tbl` scores 20. -/
theorem c7_witness :
    (c7col.quality_score = 0 ∨ c7col.quality_score = 10 ∨ c7col.quality_score = 20 ∨
      c7col.quality_score = 30) ∧ c7col.quality_score ≤ 30 :=
  c7_column_score_range [c2tbl] (update_table c2tbl) (by simp [update_quality_scores]) c7col
    (by decide)

/-- C8: whenever an import reports failure — missing file, malformed JSON, or
any parse error inside the document — the in-memory catalog is left
completely unchanged; the session state is replaced only after the whole
document has been parsed successfully. -/
theorem c8_import_fail_atomic (input : ImportInput) (now : String) (st : SessionState)
    (h : (import_data input now st).2 = false) :
    (import_data input now st).1 = st := by
  cases input with
  | fileNotFound => rfl
  | malformedJson => rfl
  | doc d =>
    simp only [import_data] at h ⊢
    cases hres : import_catalog now d with
    | ok p =>
      obtain ⟨ts, trs⟩ := p
      rw [hres] at h
      simp at h
    | error e => rfl

/-- C8, witness: importing a document whose table object lacks the required
`name` key leaves the non-empty catalog `c8st` untouched. -/
theorem c8_witness : (import_data (ImportInput.doc c8bad) "ts" c8st).1 = c8st :=
  c8_import_fail_atomic (ImportInput.doc c8bad) "ts" c8st (by decide)

/-- C9: any table (respectively transformation) one of whose Autosys job
names contains the lowercased query as a substring appears in the search
results, regardless of whether any other field matches. -/
theorem c9_job_match_found (query : String) (tables : List Table)
    (transformations : List Transformation) :
    (∀ t ∈ tables, (∃ j ∈ t.autosys_jobs, is_sub (py_lower query) (py_lower j) = true) →
      (⟨t.name, t.schema, t.description, t.table_type, "table"⟩ : TableResult) ∈
        (search_lineage query tables transformations).tables) ∧
    (∀ tr ∈ transformations,
      (∃ j ∈ tr.autosys_jobs, is_sub (py_lower query) (py_lower j) = true) →
      (⟨tr.name, tr.transformation_type, tr.description, tr.input_tables, tr.output_tables⟩ :
        TransformationResult) ∈
        (search_lineage query tables transformations).transformations) := by
  constructor
  · rintro t ht ⟨j, hj, hsub⟩
    have hmatch : table_match (py_lower query) t = true := by
      have hany : t.autosys_jobs.any (fun job => is_sub (py_lower query) (py_lower job)) = true :=
        List.any_eq_true.mpr ⟨j, hj, hsub⟩
      simp [table_match, hany]
    exact List.mem_map_of_mem _ (List.mem_filter.mpr ⟨ht, hmatch⟩)
  · rintro tr htr ⟨j, hj, hsub⟩
    have hmatch : transformation_match (py_lower query) tr = true := by
      have hany : tr.autosys_jobs.any (fun job => is_sub (py_lower query) (py_lower job)) = true :=
        List.any_eq_true.mpr ⟨j, hj, hsub⟩
      simp [transformation_match, hany]
    exact List.mem_map_of_mem _ (List.mem_filter.mpr ⟨htr, hmatch⟩)

/-- C9, witness: searching "yjob" finds the table `c9tbl`, whose only
occurrence of the query is inside its job name "MYJOB1". -/
theorem c9_witness :
    (⟨"orders", "sales", "desc-x", "Other", "table"⟩ : TableResult) ∈
      (search_lineage "yjob" [c9tbl] []).tables :=
  (c9_job_match_found "yjob" [c9tbl] []).1 c9tbl (by decide) ⟨"MYJOB1", by decide, by decide⟩

/-- C10: searching with the empty query returns every table, every column of
every table and every transformation, in input iteration order — the search
function has no guard against an empty query, and the empty string is a
substring of every field. -/
theorem c10_empty_query (tables : List Table) (transformations : List Transformation) :
    search_lineage "" tables transformations =
      { tables := tables.map (fun t => ⟨t.name, t.schema, t.description, t.table_type, "table"⟩),
        columns := tables.flatMap (fun t => t.columns.map
          (fun c => ⟨t.name ++ "." ++ c.name, c.data_type, c.description, t.name, "column"⟩)),
        transformations := transformations.map (fun tr =>
          ⟨tr.name, tr.transformation_type, tr.description, tr.input_tables, tr.output_tables⟩) } := by
  have h1 : ∀ t : Table, table_match [] t = true := by
    intro t; simp [table_match, is_sub_nil]
  have h2 : ∀ c : Column, column_match [] c = true := by
    intro c; simp [column_match, is_sub_nil]
  have h3 : ∀ tr : Transformation, transformation_match [] tr = true := by
    intro tr; simp [transformation_match, is_sub_nil]
  simp only [search_lineage, py_lower_empty]
  rw [List.filter_eq_self.mpr (fun a _ => h1 a)]
  rw [List.filter_eq_self.mpr (fun a _ => h3 a)]
  have hcols : (fun t : Table => (t.columns.filter (column_match [])).map
      (fun c => (⟨t.name ++ "." ++ c.name, c.data_type, c.description, t.name, "column"⟩ : ColumnResult))) =
      (fun t : Table => t.columns.map
      (fun c => (⟨t.name ++ "." ++ c.name, c.data_type, c.description, t.name, "column"⟩ : ColumnResult))) := by
    funext t
    rw [List.filter_eq_self.mpr (fun a _ => h2 a)]
  rw [hcols]

end Lineage
